import Mathlib

/-!
Verification of the RPC-over-HTTP gateway core (src/exch/http/http_parser.cpp)
of the gromox repository, against its natural-language specification.

Shallow embedding: the relevant state and functions of http_parser.cpp are
translated into Lean definitions.  Machine integers (uint32_t, uint16_t)
are modelled as `Nat` with explicit reduction modulo `2^32` / `2^16` where
the C code can overflow.  Stateful functions become explicit state-passing
functions; emitted RTS PDUs and context signals become explicit event lists.
-/

namespace GromoxHttp

/-- Modulus of the C type uint32_t. -/
def u32Mod : Nat := 2 ^ 32

/-- uint32_t subtraction `a - b` (wrapping), for `a b < u32Mod`. -/
def u32Sub (a b : Nat) : Nat := (a + u32Mod - b % u32Mod) % u32Mod

/-- uint32_t addition `a + b` (wrapping). -/
def u32Add (a b : Nat) : Nat := (a + b) % u32Mod

/-! ## C1 / flow-control ack on the opened IN-channel path
(htparse_rdbody, http_parser.cpp lines 1494-1516) -/

/-- A FlowControlAckWithDestination RTS PDU as built by
`pdu_processor_rts_flowcontrolack_withdestination(pcall, bytes_received,
available_window, channel_cookie)`: the triple of values it carries. -/
structure FlowControlAck where
  bytes_received : Nat
  window : Nat
  cookie : String
deriving DecidableEq, Repr

/-- Mutable fields of `RPC_IN_CHANNEL` touched by the forward path:
`available_window` and `bytes_received` are uint32_t, `channel_cookie`
a fixed C string. -/
structure InChannelFlow where
  available_window : Nat
  bytes_received : Nat
  channel_cookie : String
deriving DecidableEq, Repr

/-- Result of the forwarded-PDU accounting step: the updated IN-channel
flow state, the list of FlowControlAckWithDestination PDUs built, and
whether the paired OUT context was switched to WRREP and signaled. -/
structure ForwardOutcome where
  chan : InChannelFlow
  acks : List FlowControlAck
  out_signaled : Bool
deriving DecidableEq, Repr

/-- Embedding of http_parser.cpp lines 1494-1514 (htparse_rdbody, opened
IN-channel, `PDU_PROCESSOR_FORWARD` case, after `pdu_processor_input`):

```
pchannel_in->available_window -= frag_length;
pchannel_in->bytes_received += frag_length;
if (pcall != nullptr && pvconnection->pcontext_out != nullptr &&
    pchannel_in->available_window < och->window_size / 2) {
        pchannel_in->available_window = och->window_size;
        pdu_processor_rts_flowcontrolack_withdestination(
                pcall, pchannel_in->bytes_received,
                pchannel_in->available_window, pchannel_in->channel_cookie);
        if (PDU_PROCESSOR_INPUT == result) {
                pdu_processor_output_pdu(pcall, &och->pdu_list);
                pvconnection->pcontext_out->sched_stat = hsched_stat::wrrep;
                contexts_pool_signal(pvconnection->pcontext_out);
        }
}
```

`window_size` is the paired OUT-channel's uint32_t window size;
`pcall_present` models `pcall != nullptr`; `out_present` models
`pvconnection->pcontext_out != nullptr`; `result_is_input` models
`result == PDU_PROCESSOR_INPUT`. -/
def forwardConsume (ich : InChannelFlow) (window_size : Nat) (frag_length : Nat)
    (pcall_present : Bool) (out_present : Bool) (result_is_input : Bool) :
    ForwardOutcome :=
  let aw1 := u32Sub ich.available_window frag_length
  let br1 := u32Add ich.bytes_received frag_length
  if pcall_present ∧ out_present ∧ aw1 < window_size / 2 then
    { chan := { available_window := window_size, bytes_received := br1,
                channel_cookie := ich.channel_cookie },
      acks := [{ bytes_received := br1, window := window_size,
                 cookie := ich.channel_cookie }],
      out_signaled := result_is_input }
  else
    { chan := { available_window := aw1, bytes_received := br1,
                channel_cookie := ich.channel_cookie },
      acks := [],
      out_signaled := false }

/-! ## C8 / OUT-channel write accounting
(htparse_wrrep, http_parser.cpp lines 1203-1216) -/

/-- A node of an RPC channel's PDU queue (`BLOB_NODE`): the payload is
opaque here; `b_rts` marks RTS transport-signaling PDUs that must not
count against flow control. -/
structure BlobNode where
  b_rts : Bool
  blob_cb : Nat
deriving DecidableEq, Repr

/-- Flow-control counters of `RPC_OUT_CHANNEL` touched by the write path:
both are uint32_t. -/
structure OutChannelFlow where
  available_window : Nat
  bytes_sent : Nat
deriving DecidableEq, Repr

/-- Embedding of http_parser.cpp lines 1206-1216 (htparse_wrrep, after a
socket write of `written_len > 0` bytes, OUT channel in state `opened`):

```
if (pcontext->channel_type == hchannel_type::out &&
    ...->channel_stat == hchannel_stat::opened) {
        auto pnode = double_list_get_head(&pchannel_out->pdu_list);
        if (!static_cast<BLOB_NODE *>(pnode->pdata)->b_rts) {
                pchannel_out->available_window -= written_len;
                pchannel_out->bytes_sent += written_len;
        }
}
```

`pdu_list` is the channel's PDU queue; the C code dereferences its head
unconditionally, which is reachable only with a non-empty queue (the
write buffer was taken from the queue head in htparse_wrrep_nobuf). -/
def wrrepAccount (och : OutChannelFlow) (pdu_list : List BlobNode)
    (written_len : Nat) : OutChannelFlow :=
  match pdu_list.head? with
  | none => och
  | some node =>
      if !node.b_rts then
        { available_window := u32Sub och.available_window written_len,
          bytes_sent := u32Add och.bytes_sent written_len }
      else och

/-! ## C2 / VCONN_REF::put
(http_parser.cpp lines 318-333) -/

/-- The fields of `VIRTUAL_CONNECTION` that VCONN_REF::put inspects:
the reference count (`std::atomic<int>`) and the two paired context
slots; context pointers are modelled by context ids. -/
structure VConnEntry where
  reference : Int
  pcontext_in : Option Nat
  pcontext_out : Option Nat
deriving DecidableEq, Repr

/-- The observable actions of VCONN_REF::put, in program order:
releasing the per-VC mutex (`m_hold.unlock()`), acquiring and releasing
the registry mutex `g_vconnection_lock`, decrementing the refcount,
extracting the hash node, and destroying the extracted node (which runs
`~VIRTUAL_CONNECTION`, i.e. `pdu_processor_destroy`). -/
inductive PutEvent
  | unlockVc
  | lockRegistry
  | decRef
  | extract
  | unlockRegistry
  | destroy
deriving DecidableEq, Repr

/-- Look up a key in an association-list registry. -/
def regFind (reg : List (String × VConnEntry)) (k : String) : Option VConnEntry :=
  match reg with
  | [] => none
  | (k', v) :: rest => if k' = k then some v else regFind rest k

/-- Replace the value stored under a key. -/
def regUpdate (reg : List (String × VConnEntry)) (k : String) (v : VConnEntry) :
    List (String × VConnEntry) :=
  match reg with
  | [] => []
  | (k', v') :: rest =>
      if k' = k then (k', v) :: rest else (k', v') :: regUpdate rest k v

/-- Remove a key from the registry (`g_vconnection_hash.extract(m_iter)`). -/
def regErase (reg : List (String × VConnEntry)) (k : String) :
    List (String × VConnEntry) :=
  match reg with
  | [] => []
  | (k', v') :: rest =>
      if k' = k then rest else (k', v') :: regErase rest k

/-- Embedding of `VCONN_REF::put` (http_parser.cpp lines 318-333):

```
if (pvconnection == nullptr)
        return;
m_hold.unlock();
std::unique_lock vc_hold(g_vconnection_lock);
pvconnection->reference --;
if (0 == pvconnection->reference &&
    NULL == pvconnection->pcontext_in &&
    NULL == pvconnection->pcontext_out) {
        auto nd = g_vconnection_hash.extract(m_iter);
        vc_hold.unlock();
        /* end locked region before running ~nd */
}
pvconnection = nullptr;
```

The registry `g_vconnection_hash` is the association list `reg`; `key`
is the key the reference's iterator `m_iter` points at (hypotheses of the
theorems require it to be present).  The result is the new registry
together with the trace of observable actions; the destructor of the
extracted node runs at the end of the `if` block, after `vc_hold.unlock()`. -/
def vconnRefPut (reg : List (String × VConnEntry)) (key : String) :
    List (String × VConnEntry) × List PutEvent :=
  match regFind reg key with
  | none => (reg, [])
  | some vc =>
      let vc' : VConnEntry := { vc with reference := vc.reference - 1 }
      if vc'.reference = 0 ∧ vc.pcontext_in = none ∧ vc.pcontext_out = none then
        (regErase reg key,
         [.unlockVc, .lockRegistry, .decRef, .extract, .unlockRegistry, .destroy])
      else
        (regUpdate reg key vc',
         [.unlockVc, .lockRegistry, .decRef, .unlockRegistry])

/-! ## C3 / http_context::activate_inrecycling
(http_parser.cpp lines 2044-2064) and
C4 / http_context::try_create_vconnection (lines 1906-1969) -/

/-- The MS-RPCH channel lifecycle states (`enum hchannel_stat`). -/
inductive HChannelStat
  | openstart
  | waitinchannel
  | recycling
  | waitrecycled
  | opened
  | recycled
deriving DecidableEq, Repr

/-- The channel binding kind of an HTTP context (`enum hchannel_type`). -/
inductive HChannelType
  | hnone
  | hin
  | hout
deriving DecidableEq, Repr

/-- The context slots of a `VIRTUAL_CONNECTION` used by pairing and
recycling; context pointers are modelled by context ids. -/
structure VConnSlots where
  pcontext_in : Option Nat
  pcontext_insucc : Option Nat
  pcontext_out : Option Nat
  pcontext_outsucc : Option Nat
deriving DecidableEq, Repr

/-- Pointwise update of a per-context map. -/
def updCtx {α : Type} (f : Nat → α) (i : Nat) (x : α) : Nat → α :=
  fun j => if j = i then x else f j

/-- Embedding of `http_context::activate_inrecycling` (lines 2044-2064):

```
if (pcontext->channel_type != hchannel_type::in)
        return FALSE;
auto hch = static_cast<RPC_IN_CHANNEL *>(pcontext->pchannel);
auto pvconnection = http_parser_get_vconnection(...);
if (pvconnection == nullptr ||
    pvconnection->pcontext_insucc != pcontext ||
    strcmp(successor_cookie, ...insucc->pchannel)->channel_cookie) != 0)
        return false;
if (NULL != pvconnection->pcontext_in) {
        auto pchannel_in = ...pcontext_in->pchannel;
        pchannel_in->channel_stat = hchannel_stat::recycled;
}
pvconnection->pcontext_in = pcontext;
hch->channel_stat = hchannel_stat::opened;
pvconnection->pcontext_insucc = NULL;
return TRUE;
```

`self` is the calling context's id, `selfIsIn` models
`channel_type == hchannel_type::in`, `vconn` the registry lookup result,
`stat` the per-context IN-channel `channel_stat` map and `cookie` the
per-context IN-channel `channel_cookie` map. -/
def activateInrecycling (selfIsIn : Bool) (vconn : Option VConnSlots)
    (stat : Nat → HChannelStat) (cookie : Nat → String)
    (self : Nat) (successor_cookie : String) :
    (Option VConnSlots × (Nat → HChannelStat)) × Bool :=
  if !selfIsIn then ((vconn, stat), false)
  else
    match vconn with
    | none => ((none, stat), false)
    | some v =>
        if v.pcontext_insucc ≠ some self ∨ successor_cookie ≠ cookie self then
          ((some v, stat), false)
        else
          let stat1 := match v.pcontext_in with
            | some p => updCtx stat p HChannelStat.recycled
            | none => stat
          let stat2 := updCtx stat1 self HChannelStat.opened
          ((some { v with pcontext_in := some self, pcontext_insucc := none },
            stat2), true)

/-- Result of `http_context::try_create_vconnection`: the virtual
connection's slots after the call (when one exists), the list of context
ids passed to `contexts_pool_signal`, in call order, and the returned
BOOL. -/
structure TcvResult where
  vconn : Option VConnSlots
  signals : List Nat
  ok : Bool
deriving DecidableEq, Repr

/-- Embedding of `http_context::try_create_vconnection` (lines 1906-1969):

```
if (channel_type == in)       conn_cookie = in_chan->connection_cookie;
else if (channel_type == out) conn_cookie = out_chan->connection_cookie;
else return FALSE;
auto pvconnection = http_parser_get_vconnection(...);
if (pvconnection != nullptr) {
        if (pcontext->channel_type == hchannel_type::out) {
                pvconnection->pcontext_out = pcontext;
                return TRUE;
        }
        pvconnection->pcontext_in = pcontext;
        if (pvconnection->pcontext_out != nullptr)
                contexts_pool_signal(pvconnection->pcontext_out);
        return TRUE;
}
/* create a new entry */
if (g_vconnection_hash.size() >= g_context_num + 1) return false;
... pdu_processor_create ...; on failure return FALSE;
if (channel_type == out) nc->pcontext_out = pcontext;
else                     nc->pcontext_in = pcontext;
return TRUE;
```

`existing` is the registry lookup result, `hashFull` models
`g_vconnection_hash.size() >= g_context_num + 1` and `processorOk`
models `pdu_processor_create` succeeding. -/
def tryCreateVconnection (chanType : HChannelType) (self : Nat)
    (existing : Option VConnSlots) (hashFull : Bool) (processorOk : Bool) :
    TcvResult :=
  match chanType with
  | .hnone => { vconn := existing, signals := [], ok := false }
  | .hout =>
      match existing with
      | some v =>
          { vconn := some { v with pcontext_out := some self },
            signals := [], ok := true }
      | none =>
          if hashFull then { vconn := none, signals := [], ok := false }
          else if !processorOk then { vconn := none, signals := [], ok := false }
          else
            { vconn := some { pcontext_in := none, pcontext_insucc := none,
                              pcontext_out := some self, pcontext_outsucc := none },
              signals := [], ok := true }
  | .hin =>
      match existing with
      | some v =>
          { vconn := some { v with pcontext_in := some self },
            signals := match v.pcontext_out with
                       | some o => [o]
                       | none => [],
            ok := true }
      | none =>
          if hashFull then { vconn := none, signals := [], ok := false }
          else if !processorOk then { vconn := none, signals := [], ok := false }
          else
            { vconn := some { pcontext_in := some self, pcontext_insucc := none,
                              pcontext_out := none, pcontext_outsucc := none },
              signals := [], ok := true }

/-! ## C string primitives used by the parsing code -/

/-- Model of `memchr(l, c, l.length)` / `strchr` on a NUL-free buffer: index of the
first occurrence of `c`. -/
def memchr (c : Char) : List Char → Option Nat
  | [] => none
  | x :: xs => if x = c then some 0 else (memchr c xs).map (· + 1)

/-- Model of `strncasecmp(a, b, b.length) == 0` for equal-length data: ASCII
case-insensitive equality of two character lists. -/
def caseEqList (a b : List Char) : Bool :=
  a.map Char.toLower = b.map Char.toLower

/-- Model of `strncmp(s, p, p.length) == 0` on a NUL-terminated `s`: `p` is a
literal prefix of `s`. -/
def startsWithList : List Char → List Char → Bool
  | _, [] => true
  | [], _ :: _ => false
  | c :: cs, p :: ps => c = p && startsWithList cs ps

/-- Read the byte at index `i` of a NUL-terminated C string: past the end
the terminator `'\0'` is seen. -/
def cAt (l : List Char) (i : Nat) : Char := l.getD i (Char.ofNat 0)

/-- Model of `isspace` of the C locale. -/
def isSpaceC (c : Char) : Bool :=
  c = ' ' ∨ c = '\t' ∨ c = '\n' ∨ c = '\x0b' ∨ c = '\x0c' ∨ c = '\r'

/-- Value of a digit character under a base-`b` integer parse, `none` for
a non-digit. -/
def digitValB (b : Nat) (c : Char) : Option Nat :=
  let v : Option Nat :=
    if '0' ≤ c ∧ c ≤ '9' then some (c.toNat - '0'.toNat)
    else if 'a' ≤ c ∧ c ≤ 'f' then some (c.toNat - 'a'.toNat + 10)
    else if 'A' ≤ c ∧ c ≤ 'F' then some (c.toNat - 'A'.toNat + 10)
    else none
  match v with
  | some d => if d < b then some d else none
  | none => none

/-- Accumulate the maximal run of base-`b` digits (the magnitude loop of
strtol, without the `long` overflow clamp). -/
def parseDigitsAux (b : Nat) : List Char → Nat → Nat
  | [], acc => acc
  | c :: cs, acc =>
      match digitValB b c with
      | some d => parseDigitsAux b cs (acc * b + d)
      | none => acc

/-- Magnitude part of `strtol(s, nullptr, 0)` after sign handling: a
`0x`/`0X` prefix selects base 16 (falling back to the leading `0` when no
hex digit follows), a leading `0` selects base 8, anything else base 10. -/
def strtolMag : List Char → Nat
  | '0' :: 'x' :: r =>
      if (r.head?.map fun c => (digitValB 16 c).isSome).getD false
      then parseDigitsAux 16 r 0 else 0
  | '0' :: 'X' :: r =>
      if (r.head?.map fun c => (digitValB 16 c).isSome).getD false
      then parseDigitsAux 16 r 0 else 0
  | '0' :: r => parseDigitsAux 8 r 0
  | r => parseDigitsAux 10 r 0

/-- Model of `strtol(s, nullptr, 0)`: optional whitespace, optional sign, then the
base-detecting magnitude parse; no digits yields 0. -/
def strtol0 (l : List Char) : Int :=
  let l1 := l.dropWhile isSpaceC
  match l1 with
  | '-' :: r => -(strtolMag r : Int)
  | '+' :: r => (strtolMag r : Int)
  | r => (strtolMag r : Int)

/-- The spec's notion of "the port part is a decimal number": a nonempty
all-decimal-digit string (used to state claim C5, not taken from the
source). -/
def isDecDigits (l : List Char) : Bool :=
  l ≠ [] ∧ ∀ c ∈ l, '0' ≤ c ∧ c ≤ '9'

/-! ## C10 / htp_auth_1 (http_parser.cpp lines 715-735) -/

/-- Outcome of the Authorization-header step: either header processing
continues with the request unauthenticated (`tproc_status::runoff`
without touching `b_authed` or emitting a response), or the auth backend
is queried with a username/password pair (`htp_auth`). -/
inductive AuthOutcome
  | unauthed
  | query (user : List Char) (pass : List Char)
deriving DecidableEq, Repr

/-- Embedding of `htp_auth_1` (http_parser.cpp lines 715-735):

```
auto line = http_parser_request_head(ctx.request.f_others, "Authorization");
if (line == nullptr)
        return tproc_status::runoff;
if (strncasecmp(line, "Basic ", 6) == 0) {
        char decoded[1024];
        size_t decode_len = 0;
        if (decode64(&line[6], strlen(&line[6]), decoded, ..., &decode_len) != 0)
                return tproc_status::runoff;
        auto p = strchr(decoded, ':');
        if (p == nullptr)
                return tproc_status::runoff;
        *p++ = '\0';
        gx_strlcpy(ctx.username, decoded, std::size(ctx.username));  /* [256] */
        gx_strlcpy(ctx.password, p, std::size(ctx.password));        /* [128] */
        return htp_auth(&ctx);
}
return tproc_status::runoff;
```

`auth` is the Authorization header value when present; `dec` models the
external base64 decoder `decode64` (`none` = decode failure); the decoded
buffer is treated as NUL-free binary. -/
def htpAuth1 (auth : Option (List Char)) (dec : List Char → Option (List Char)) :
    AuthOutcome :=
  match auth with
  | none => .unauthed
  | some line =>
      if caseEqList (line.take 6) "Basic ".toList then
        match dec (line.drop 6) with
        | none => .unauthed
        | some decoded =>
            match memchr ':' decoded with
            | none => .unauthed
            | some j =>
                .query ((decoded.take j).take 255) ((decoded.drop (j + 1)).take 127)
      else .unauthed

/-! ## C5 / RPC URI parsing in htp_delegate_rpc
(http_parser.cpp lines 737-773) -/

/-- Outcome of the rpcproxy URI parse: a 400 error response, or the host
and port stored into the context. -/
inductive RpcUriResult
  | err400
  | okParsed (host : List Char) (port : Int)
deriving DecidableEq, Repr

/-- The prefix `"/rpc/rpcproxy.dll?"` (18 characters). -/
def pfxRpc : List Char := "/rpc/rpcproxy.dll?".toList

/-- The prefix `"/rpcwithcert/rpcproxy.dll?"` (26 characters). -/
def pfxRpcCert : List Char := "/rpcwithcert/rpcproxy.dll?".toList

/-- Embedding of the URI-splitting part of `htp_delegate_rpc`
(http_parser.cpp lines 740-773):

```
auto tmp_len = pcontext->request.f_request_uri.size();
if (0 == tmp_len || tmp_len >= 1024)        return http_done(pcontext, 400);
gx_strlcpy(tmp_buff, ...f_request_uri.c_str(), 2048);
if (0 == strncmp(tmp_buff, "/rpc/rpcproxy.dll?", 18))              ptoken = tmp_buff + 18;
else if (0 == strncmp(tmp_buff, "/rpcwithcert/rpcproxy.dll?", 26)) ptoken = tmp_buff + 26;
else                                        return http_done(pcontext, 400);
auto ptoken1 = strchr(tmp_buff, ':');
if (NULL == ptoken1)                        return http_done(pcontext, 400);
*ptoken1 = '\0';
if (ptoken1 - ptoken > 128)                 return http_done(pcontext, 400);
ptoken1++;
gx_strlcpy(pcontext->host, ptoken, std::size(pcontext->host));  /* char[128] */
pcontext->port = strtol(ptoken1, nullptr, 0);
```

Note `strchr` scans from the start of the whole buffer, and the port is
the unvalidated `strtol` of everything after the first `':'`. -/
def htpDelegateRpcUri (uri : List Char) : RpcUriResult :=
  if uri.length = 0 ∨ 1024 ≤ uri.length then .err400
  else
    match (if startsWithList uri pfxRpc then some 18
           else if startsWithList uri pfxRpcCert then some 26
           else none : Option Nat) with
    | none => .err400
    | some k =>
        match memchr ':' uri with
        | none => .err400
        | some j =>
            if 128 < j - k then .err400
            else .okParsed (((uri.drop k).take (j - k)).take 127)
                   (strtol0 (uri.drop (j + 1)))

/-! ## C6 / request-line parsing in htparse_rdhead_no
(http_parser.cpp lines 512-564) -/

/-- Modelled from the spec: the constant `http_request::uri_limit` is
declared outside src/; the spec fixes only that the cap is
implementation-defined and at least 1024 bytes.  We take the minimum
admissible value 1024. -/
def uri_limit : Nat := 1024

/-- Outcome of request-line parsing: an error response code, or the
stored method, close-after-reply flag, request URI and version. -/
inductive RdheadNoResult
  | err (code : Nat)
  | okLine (method : List Char) (b_close : Bool) (uri : List Char)
      (version : List Char)
deriving DecidableEq, Repr

/-- Embedding of `htparse_rdhead_no` (http_parser.cpp lines 512-564):

```
auto ptoken = memchr(line, ' ', line_length);
if (NULL == ptoken)                          return http_done(pcontext, -400);
size_t tmp_len = ptoken - line;
if (tmp_len >= 32)                           return http_done(pcontext, -400);
memcpy(pcontext->request.method, line, tmp_len);
auto ptoken1 = memchr(ptoken + 1, ' ', line_length - tmp_len - 1);
if (NULL == ptoken1)                         return http_done(pcontext, -400);
size_t tmp_len1 = ptoken1 - ptoken - 1;
tmp_len = line_length - (ptoken1 + 6 - line);
if (strncasecmp(&ptoken1[1], "HTTP/1.1", 8) == 0 && ptoken1[9] in {\r,\n,\0})
        pcontext->b_close = false;
else if (strncasecmp(&ptoken1[1], "HTTP/1.0", 8) == 0 && ptoken1[9] in {...})
        pcontext->b_close = TRUE;
else                                         return http_done(pcontext, -400);
if (tmp_len1 == 0)                           return http_done(pcontext, -400);
if (tmp_len1 >= http_request::uri_limit)     return http_done(pcontext, -414);
if (!mod_rewrite_process(ptoken + 1, tmp_len1, ...f_request_uri))
        pcontext->request.f_request_uri = std::string_view(&ptoken[1], tmp_len1);
memcpy(pcontext->request.version, ptoken1 + 6, tmp_len);
```

The line is NUL-terminated, so reads past `line_length` (the `ptoken1[9]`
probe) see `'\0'`; the optional mod_rewrite filter is modelled with no
rewrite rule matching, so the stored URI is the original token. -/
def htparseRdheadNo (line : List Char) : RdheadNoResult :=
  match memchr ' ' line with
  | none => .err 400
  | some sp1 =>
      if 32 ≤ sp1 then .err 400
      else
        match memchr ' ' (line.drop (sp1 + 1)) with
        | none => .err 400
        | some uriLen =>
            let sp2 := sp1 + 1 + uriLen
            let tail9 := cAt line (sp2 + 9)
            let tail9ok := tail9 = '\r' ∨ tail9 = '\n' ∨ tail9 = Char.ofNat 0
            let ver := (line.drop (sp2 + 1)).take 8
            if caseEqList ver "HTTP/1.1".toList ∧ tail9ok then
              htparseRdheadNo2 line sp1 sp2 uriLen false
            else if caseEqList ver "HTTP/1.0".toList ∧ tail9ok then
              htparseRdheadNo2 line sp1 sp2 uriLen true
            else .err 400
where
  /-- Continuation after the version check: URI length checks, then the
  method, URI and version tokens are stored. -/
  htparseRdheadNo2 (line : List Char) (sp1 sp2 uriLen : Nat) (bclose : Bool) :
      RdheadNoResult :=
    if uriLen = 0 then .err 400
    else if uri_limit ≤ uriLen then .err 414
    else .okLine (line.take sp1) bclose ((line.drop (sp1 + 1)).take uriLen)
      (line.drop (sp2 + 6))

/-! ## C7 / DCE-RPC fragment-header framing in htparse_rdbody
(http_parser.cpp lines 1408-1467) -/

/-- Modelled from the spec: `DCERPC_FRAG_LEN_OFFSET` is declared outside
src/; the spec fixes the fragment-length offset as 10. -/
def DCERPC_FRAG_LEN_OFFSET : Nat := 10

/-- Modelled from the spec: `DCERPC_DREP_OFFSET` is declared outside
src/; the spec fixes the DREP byte offset as 8. -/
def DCERPC_DREP_OFFSET : Nat := 8

/-- Modelled from the spec: `DCERPC_DREP_LE` is declared outside src/;
the spec says endianness is derived from the DREP byte, whose standard
MS-RPCE little-endian flag is 0x10. -/
def DCERPC_DREP_LE : Nat := 0x10

/-- Framing decision of the body parser: keep reading from the socket, or
the fragment length of the PDU under construction is known. -/
inductive RdbodyStep
  | keepReading
  | framed (frag_length : Nat)
deriving DecidableEq, Repr

/-- Embedding of the fragment-length determination in `htparse_rdbody`
(http_parser.cpp lines 1408-1467), for a channel whose recorded
`frag_length` is `frag` and whose in-stream currently buffers `buf`
(bytes, each < 256):

```
auto tmp_len = pcontext->stream_in.get_total_length();
if (tmp_len < DCERPC_FRAG_LEN_OFFSET + 2 || (frag_length > 0 && tmp_len < frag_length)) {
        ... htparse_readsock(...) ...            /* keep reading */
}
...
if (tmp_len < DCERPC_FRAG_LEN_OFFSET + 2)
        return tproc_status::cont;               /* keep reading */
if (0 == frag_length) {
        auto pbd = static_cast<uint8_t *>(pbuff);
        auto pfrag = &pbd[DCERPC_FRAG_LEN_OFFSET];
        frag_length = (pbd[DCERPC_DREP_OFFSET] & DCERPC_DREP_LE) ?
                      le16p_to_cpu(pfrag) : be16p_to_cpu(pfrag);
        ... store frag_length on the channel ...
}
```

The function returns whether the parser still has to read more bytes
before the fragment header can be interpreted, or the 16-bit fragment
length it determines. -/
def rdbodyFragDetermine (buf : List Nat) (frag : Nat) : RdbodyStep :=
  if buf.length < DCERPC_FRAG_LEN_OFFSET + 2 then .keepReading
  else if frag = 0 then
    .framed
      (if (buf.getD DCERPC_DREP_OFFSET 0).land DCERPC_DREP_LE ≠ 0 then
        buf.getD DCERPC_FRAG_LEN_OFFSET 0 +
          256 * buf.getD (DCERPC_FRAG_LEN_OFFSET + 1) 0
      else
        256 * buf.getD DCERPC_FRAG_LEN_OFFSET 0 +
          buf.getD (DCERPC_FRAG_LEN_OFFSET + 1) 0)
  else .framed frag

/-! ## C9 / echo path for small RPC bodies
(htp_delegate_rpc lines 796-814, htparse_rdbody_nochan lines 1360-1393) -/

/-- Embedding of the channel-allocation decision of `htp_delegate_rpc`
(http_parser.cpp lines 796-810), for an authenticated request:

```
pcontext->total_length = strtoull(...f_content_length.c_str(), nullptr, 0);
/* ECHO request 0x0 ~ 0x10, MS-RPCH 2.1.2.15 */
if (pcontext->total_length > 0x10) {
        if (0 == strcmp(pcontext->request.method, "RPC_IN_DATA")) {
                pcontext->channel_type = hchannel_type::in;
                pcontext->pchannel = g_inchannel_allocator->get();
        } else {
                pcontext->channel_type = hchannel_type::out;
                pcontext->pchannel = g_outchannel_allocator->get();
        }
}
pcontext->sched_stat = hsched_stat::rdbody;
```

Returns the context's channel type after the call (starting from
`prev`) together with whether a PduChannel was allocated. -/
def htpDelegateRpcChannel (method : List Char) (total_length : Nat)
    (prev : HChannelType) : HChannelType × Bool :=
  if 0x10 < total_length then
    if method = "RPC_IN_DATA".toList then (.hin, true) else (.hout, true)
  else (prev, false)

/-- Outcome of `htparse_rdbody_nochan` once the declared body has been
consumed on a channel-less context: a 405 error, or the fixed echo
response (its header block and the length of the RTS echo PDU appended
by `pdu_processor_rts_echo`, which emits 20 bytes). -/
inductive NochanOutcome
  | err (code : Nat)
  | echoReply (head : List Char) (body_len : Nat)
deriving DecidableEq, Repr

/-- The fixed response head written for an RPC ECHO request. -/
def echoResponseHead : List Char :=
  ("HTTP/1.1 200 Success\r\n" ++
   "Connection: Keep-Alive\r\n" ++
   "Content-Length: 20\r\n" ++
   "Content-Type: application/rpc\r\n\r\n").toList

/-- Embedding of the reply part of `htparse_rdbody_nochan`
(http_parser.cpp lines 1369-1392), reached after `bytes_rw` has caught up
with `total_length` on a context with no channel:

```
if (strcasecmp(...method, "RPC_IN_DATA") != 0 &&
    strcasecmp(...method, "RPC_OUT_DATA") != 0)
        return http_done(pcontext, 405);
/* ECHO request */
auto response_len = gx_snprintf(response_buff, ...,
        "HTTP/1.1 200 Success\r\nConnection: Keep-Alive\r\n"
        "Content-Length: 20\r\nContent-Type: application/rpc\r\n\r\n");
pdu_processor_rts_echo(response_buff + response_len);
response_len += 20;
pcontext->stream_out.write(response_buff, response_len);
pcontext->total_length = response_len;
pcontext->bytes_rw = 0;
pcontext->sched_stat = hsched_stat::wrrep;
```
-/
def rdbodyNochanReply (method : List Char) : NochanOutcome :=
  if ¬(caseEqList method "RPC_IN_DATA".toList ∨
       caseEqList method "RPC_OUT_DATA".toList) then .err 405
  else .echoReply echoResponseHead 20

/-! ## Theorems -/

/-- Helper: memchr skips a non-matching head character. -/
theorem memchr_cons_of_ne {x c : Char} (xs : List Char) (h : x ≠ c) :
    memchr c (x :: xs) = (memchr c xs).map (· + 1) := by
  simp [memchr, h]

/-- Helper: memchr finds the separator right after a separator-free
prefix. -/
theorem memchr_append_sep (c : Char) (l r : List Char) (h : c ∉ l) :
    memchr c (l ++ c :: r) = some l.length := by
  induction l with
  | nil => simp [memchr]
  | cons x xs ih =>
      simp only [List.mem_cons, not_or] at h
      rw [List.cons_append, memchr_cons_of_ne _ (Ne.symm h.1), ih h.2]
      rfl

/-- Helper: memchr over an append whose first part has no match. -/
theorem memchr_append_none (c : Char) (l r : List Char)
    (h : memchr c l = none) :
    memchr c (l ++ r) = (memchr c r).map (· + l.length) := by
  induction l with
  | nil => simp
  | cons x xs ih =>
      by_cases hx : x = c
      · simp [memchr, hx] at h
      · rw [memchr_cons_of_ne _ hx] at h
        rw [List.cons_append, memchr_cons_of_ne _ hx,
          ih (by cases hmx : memchr c xs <;> simp [hmx] at h ⊢)]
        cases memchr c r <;> simp
        omega

/-- Helper: a literal prefix satisfies the strncmp test. -/
theorem startsWithList_append (p r : List Char) :
    startsWithList (p ++ r) p = true := by
  induction p with
  | nil => cases r <;> rfl
  | cons x xs ih => simp [startsWithList, ih]

/-- A key absent from the key column of a registry is not found. -/
theorem regFind_of_not_mem (reg : List (String × VConnEntry)) (k : String)
    (h : k ∉ reg.map Prod.fst) : regFind reg k = none := by
  induction reg with
  | nil => rfl
  | cons p rest ih =>
      simp only [List.map_cons, List.mem_cons] at h
      push_neg at h
      simp only [regFind, if_neg (Ne.symm h.1), ih h.2]

/-- Erasing a key from a registry with pairwise-distinct keys makes the
key unfindable. -/
theorem regFind_regErase_self (reg : List (String × VConnEntry)) (k : String)
    (h : (reg.map Prod.fst).Nodup) : regFind (regErase reg k) k = none := by
  induction reg with
  | nil => rfl
  | cons p rest ih =>
      simp only [List.map_cons, List.nodup_cons] at h
      by_cases hk : p.1 = k
      · simp only [regErase, if_pos hk]
        exact regFind_of_not_mem rest k (hk ▸ h.1)
      · simp only [regErase, if_neg hk, regFind, if_neg hk]
        exact ih h.2

/-- Updating a present key stores the new value under it. -/
theorem regFind_regUpdate_self (reg : List (String × VConnEntry)) (k : String)
    (vc v : VConnEntry) (h : regFind reg k = some vc) :
    regFind (regUpdate reg k v) k = some v := by
  induction reg with
  | nil => simp [regFind] at h
  | cons p rest ih =>
      by_cases hk : p.1 = k
      · simp only [regUpdate, if_pos hk, regFind, if_pos hk]
      · simp only [regFind, if_neg hk] at h
        simp only [regUpdate, if_neg hk, regFind, if_neg hk]
        exact ih h


/-- Claim C2: releasing a borrowed virtual-connection reference removes
the virtual connection from the registry exactly when, after the
decrement, its refcount is zero and both context slots are null; in every
other case the entry stays in the registry (holding the decremented
count), and for a removed entry the destruction action comes strictly
after the registry lock has been released. -/
theorem c2_put_removal (reg : List (String × VConnEntry)) (key : String)
    (vc : GromoxHttp.VConnEntry) (hmem : GromoxHttp.regFind reg key = some vc)
    (hnd : (reg.map Prod.fst).Nodup) :
    (GromoxHttp.regFind (GromoxHttp.vconnRefPut reg key).1 key = none ↔
      (vc.reference - 1 = 0 ∧ vc.pcontext_in = none ∧ vc.pcontext_out = none)) ∧
    (GromoxHttp.PutEvent.destroy ∈ (GromoxHttp.vconnRefPut reg key).2 →
      (GromoxHttp.vconnRefPut reg key).2.indexOf GromoxHttp.PutEvent.unlockRegistry <
        (GromoxHttp.vconnRefPut reg key).2.indexOf GromoxHttp.PutEvent.destroy) := by
  unfold GromoxHttp.vconnRefPut
  rw [hmem]
  dsimp only
  by_cases hc : vc.reference - 1 = 0 ∧ vc.pcontext_in = none ∧ vc.pcontext_out = none
  · rw [if_pos hc]
    dsimp only
    constructor
    · exact ⟨fun _ => hc, fun _ => GromoxHttp.regFind_regErase_self reg key hnd⟩
    · intro _
      decide
  · rw [if_neg hc]
    dsimp only
    constructor
    · rw [GromoxHttp.regFind_regUpdate_self reg key vc _ hmem]
      simp only [reduceCtorEq, false_iff]
      exact hc
    · intro habs
      exact absurd habs (by decide)


/-- Claim C1: on the opened IN-channel path, after a forwarded PDU of size
`frag_length` is consumed (the debit `available_window -= frag_length` and
the credit `bytes_received += frag_length`, both as uint32_t), if the
debited `available_window` has dropped below half the paired OUT-channel's
`window_size`, then exactly one FlowControlAckWithDestination PDU carrying
`(bytes_received, window_size, channel_cookie)` is built and the
IN-channel's `available_window` is reset to `window_size`; if the debited
window is still at least half the window size, no ack is built and
`available_window` holds exactly the debited value. -/
theorem c1_flow_control_ack (ich : GromoxHttp.InChannelFlow) (window_size frag_length : Nat)
    (result_is_input : Bool)
    (_haw : ich.available_window < GromoxHttp.u32Mod)
    (_hbr : ich.bytes_received < GromoxHttp.u32Mod)
    (_hfrag : frag_length < 2 ^ 16) :
    (GromoxHttp.forwardConsume ich window_size frag_length true true
        result_is_input).chan.bytes_received =
      GromoxHttp.u32Add ich.bytes_received frag_length ∧
    (GromoxHttp.u32Sub ich.available_window frag_length < window_size / 2 →
      (GromoxHttp.forwardConsume ich window_size frag_length true true
          result_is_input).acks =
        [{ bytes_received := GromoxHttp.u32Add ich.bytes_received frag_length,
           window := window_size, cookie := ich.channel_cookie }] ∧
      (GromoxHttp.forwardConsume ich window_size frag_length true true
          result_is_input).chan.available_window = window_size) ∧
    (¬ GromoxHttp.u32Sub ich.available_window frag_length < window_size / 2 →
      (GromoxHttp.forwardConsume ich window_size frag_length true true
          result_is_input).acks = [] ∧
      (GromoxHttp.forwardConsume ich window_size frag_length true true
          result_is_input).chan.available_window =
        GromoxHttp.u32Sub ich.available_window frag_length) := by
  by_cases h : GromoxHttp.u32Sub ich.available_window frag_length < window_size / 2
  · simp [GromoxHttp.forwardConsume, h]
  · simp [GromoxHttp.forwardConsume, h]

/-- Witness for c1_flow_control_ack: a concrete IN channel with
`available_window = 1000`, `bytes_received = 50`, OUT window size 4000,
fragment of 600 bytes.  The debit leaves 400 < 2000, so one ack with
`bytes_received = 650` is built and the window resets to 4000. -/
theorem c1_flow_control_ack_witness :
    (GromoxHttp.forwardConsume
      { available_window := 1000, bytes_received := 50, channel_cookie := "c" }
      4000 600 true true true).acks =
      [{ bytes_received := 650, window := 4000, cookie := "c" }] ∧
    (GromoxHttp.forwardConsume
      { available_window := 1000, bytes_received := 50, channel_cookie := "c" }
      4000 600 true true true).chan.available_window = 4000 := by
  have h := c1_flow_control_ack
    { available_window := 1000, bytes_received := 50, channel_cookie := "c" }
    4000 600 true (by decide) (by decide) (by decide)
  have hd : GromoxHttp.u32Sub 1000 600 < 4000 / 2 := by decide
  exact ⟨(h.2.1 hd).1, (h.2.1 hd).2⟩

/-- Claim C8: in the OUT-channel write path with the channel OPENED, a
successful socket write of `n > 0` bytes decreases `available_window` by
`n` and increases `bytes_sent` by `n` exactly when the PDU at the head of
the channel's queue is not an RTS PDU; for an RTS head both counters are
unchanged. -/
theorem c8_wrrep_accounting (och : GromoxHttp.OutChannelFlow) (node : GromoxHttp.BlobNode)
    (rest : List GromoxHttp.BlobNode) (n : Nat)
    (haw : och.available_window < GromoxHttp.u32Mod)
    (_hbs : och.bytes_sent < GromoxHttp.u32Mod)
    (hn : 0 < n) (hle : n ≤ och.available_window) :
    (node.b_rts = false →
      GromoxHttp.wrrepAccount och (node :: rest) n =
        { available_window := och.available_window - n,
          bytes_sent := GromoxHttp.u32Add och.bytes_sent n }) ∧
    (node.b_rts = true →
      GromoxHttp.wrrepAccount och (node :: rest) n = och) := by
  constructor
  · intro hr
    unfold GromoxHttp.wrrepAccount
    simp [hr]
    unfold GromoxHttp.u32Sub
    have h1 : n % GromoxHttp.u32Mod = n :=
      Nat.mod_eq_of_lt (lt_of_le_of_lt hle haw)
    rw [h1]
    have h2 : och.available_window + GromoxHttp.u32Mod - n =
        GromoxHttp.u32Mod + (och.available_window - n) := by omega
    rw [h2, Nat.add_mod_left]
    exact Nat.mod_eq_of_lt (by omega)
  · intro hr
    unfold GromoxHttp.wrrepAccount
    simp [hr]

/-- Witness for c8_wrrep_accounting: window 5000, bytes_sent 100, a
non-RTS head PDU and a write of 300 bytes debits the window to 4700 and
credits bytes_sent to 400; an RTS head leaves both counters unchanged. -/
theorem c8_wrrep_accounting_witness :
    GromoxHttp.wrrepAccount { available_window := 5000, bytes_sent := 100 }
      [{ b_rts := false, blob_cb := 300 }] 300 =
      { available_window := 4700, bytes_sent := 400 } ∧
    GromoxHttp.wrrepAccount { available_window := 5000, bytes_sent := 100 }
      [{ b_rts := true, blob_cb := 300 }] 300 =
      { available_window := 5000, bytes_sent := 100 } := by
  have h1 := c8_wrrep_accounting { available_window := 5000, bytes_sent := 100 }
    { b_rts := false, blob_cb := 300 } [] 300 (by decide) (by decide)
    (by decide) (by decide)
  have h2 := c8_wrrep_accounting { available_window := 5000, bytes_sent := 100 }
    { b_rts := true, blob_cb := 300 } [] 300 (by decide) (by decide)
    (by decide) (by decide)
  refine ⟨?_, h2.2 rfl⟩
  have := h1.1 rfl
  rw [this]
  congr 1

/-- Witness for c2_put_removal: a one-entry registry whose entry has
refcount 1 and empty context slots.  Releasing the last reference removes
the entry, and in the resulting trace the registry unlock precedes the
destruction. -/
theorem c2_put_removal_witness :
    GromoxHttp.regFind
      (GromoxHttp.vconnRefPut [("k", ⟨1, none, none⟩)] "k").1 "k" = none ∧
    List.indexOf GromoxHttp.PutEvent.unlockRegistry
        (GromoxHttp.vconnRefPut [("k", ⟨1, none, none⟩)] "k").2 <
      List.indexOf GromoxHttp.PutEvent.destroy
        (GromoxHttp.vconnRefPut [("k", ⟨1, none, none⟩)] "k").2 := by
  have h := c2_put_removal [("k", ⟨1, none, none⟩)] "k" ⟨1, none, none⟩
    (by decide) (by simp)
  exact ⟨h.1.mpr (by decide), h.2 (by decide)⟩

/-- Claim C3: if activate_inrecycling(successor_cookie) invoked on
context S returns TRUE, then afterwards the virtual connection has
ctx_in = S and ctx_in_succ = null, S's IN-channel state is OPENED, and
any predecessor context distinct from S that occupied ctx_in at the call
has its IN-channel state set to RECYCLED. -/
theorem c3_activate_inrecycling (selfIsIn : Bool) (v : GromoxHttp.VConnSlots)
    (stat : Nat → GromoxHttp.HChannelStat) (cookie : Nat → String)
    (self : Nat) (sc : String)
    (hres : (GromoxHttp.activateInrecycling selfIsIn (some v) stat cookie self sc).2
      = true) :
    (GromoxHttp.activateInrecycling selfIsIn (some v) stat cookie self
        sc).1.1 =
      some { v with pcontext_in := some self, pcontext_insucc := none } ∧
    (GromoxHttp.activateInrecycling selfIsIn (some v) stat cookie self
        sc).1.2 self = GromoxHttp.HChannelStat.opened ∧
    (∀ p, v.pcontext_in = some p → p ≠ self →
      (GromoxHttp.activateInrecycling selfIsIn (some v) stat cookie self
          sc).1.2 p = GromoxHttp.HChannelStat.recycled) := by
  unfold GromoxHttp.activateInrecycling at hres ⊢
  cases selfIsIn with
  | false => simp at hres
  | true =>
      simp only [Bool.not_true, Bool.false_eq_true, if_false, ite_false] at hres ⊢
      by_cases hg : v.pcontext_insucc ≠ some self ∨ sc ≠ cookie self
      · rw [if_pos hg] at hres
        exact absurd hres (by simp)
      · rw [if_neg hg] at hres ⊢
        dsimp only
        refine ⟨rfl, ?_, ?_⟩
        · simp [GromoxHttp.updCtx]
        · intro p hp hne
          rw [hp]
          simp [GromoxHttp.updCtx, hne, Ne.symm hne]

/-- Witness for c3_activate_inrecycling: predecessor context 1 holds
ctx_in, successor context 2 is queued as ctx_in_succ with channel cookie
"sc"; activation with "sc" succeeds, promotes context 2 to ctx_in, clears
the successor slot, opens 2's channel and recycles 1's channel. -/
theorem c3_activate_inrecycling_witness :
    (GromoxHttp.activateInrecycling true
        (some { pcontext_in := some 1, pcontext_insucc := some 2,
                pcontext_out := none, pcontext_outsucc := none })
        (fun _ => GromoxHttp.HChannelStat.opened) (fun _ => "sc") 2 "sc").1.1 =
      some { pcontext_in := some 2, pcontext_insucc := none,
             pcontext_out := none, pcontext_outsucc := none } ∧
    (GromoxHttp.activateInrecycling true
        (some { pcontext_in := some 1, pcontext_insucc := some 2,
                pcontext_out := none, pcontext_outsucc := none })
        (fun _ => GromoxHttp.HChannelStat.opened) (fun _ => "sc") 2 "sc").1.2 2 =
      GromoxHttp.HChannelStat.opened ∧
    (GromoxHttp.activateInrecycling true
        (some { pcontext_in := some 1, pcontext_insucc := some 2,
                pcontext_out := none, pcontext_outsucc := none })
        (fun _ => GromoxHttp.HChannelStat.opened) (fun _ => "sc") 2 "sc").1.2 1 =
      GromoxHttp.HChannelStat.recycled := by
  have h := c3_activate_inrecycling true
    { pcontext_in := some 1, pcontext_insucc := some 2,
      pcontext_out := none, pcontext_outsucc := none }
    (fun _ => GromoxHttp.HChannelStat.opened) (fun _ => "sc") 2 "sc"
    (by decide)
  exact ⟨h.1, h.2.1, h.2.2 1 rfl (by decide)⟩

/-- Counterexample to claim C4 as stated: an OUT-channel context (id 2)
arrives at an existing virtual connection whose ctx_in slot is occupied
(by context 1); the installation succeeds, the peer slot is non-null,
yet no context is signaled (`contexts_pool_signal` is not reached on the
OUT-arrival path of try_create_vconnection). -/
theorem c4_counterexample :
    (GromoxHttp.tryCreateVconnection GromoxHttp.HChannelType.hout 2
        (some { pcontext_in := some 1, pcontext_insucc := none,
                pcontext_out := none, pcontext_outsucc := none })
        false true).ok = true ∧
    (GromoxHttp.tryCreateVconnection GromoxHttp.HChannelType.hout 2
        (some { pcontext_in := some 1, pcontext_insucc := none,
                pcontext_out := none, pcontext_outsucc := none })
        false true).vconn =
      some { pcontext_in := some 1, pcontext_insucc := none,
             pcontext_out := some 2, pcontext_outsucc := none } ∧
    (GromoxHttp.tryCreateVconnection GromoxHttp.HChannelType.hout 2
        (some { pcontext_in := some 1, pcontext_insucc := none,
                pcontext_out := none, pcontext_outsucc := none })
        false true).signals = [] := by
  decide

/-- Claim C4 amended: when try_create_vconnection installs a context into
an already-existing virtual connection, the peer is signaled only on the
IN-channel side: an IN context arriving while ctx_out is set signals that
OUT context (and nothing else); an OUT context arriving signals nobody,
whether or not ctx_in is set.  Installation succeeds in both cases. -/
theorem c4_peer_signal (v : GromoxHttp.VConnSlots) (self : Nat)
    (hf pk : Bool) :
    ((GromoxHttp.tryCreateVconnection GromoxHttp.HChannelType.hin self
        (some v) hf pk).ok = true ∧
      (GromoxHttp.tryCreateVconnection GromoxHttp.HChannelType.hin self
        (some v) hf pk).vconn = some { v with pcontext_in := some self } ∧
      (GromoxHttp.tryCreateVconnection GromoxHttp.HChannelType.hin self
        (some v) hf pk).signals = v.pcontext_out.toList) ∧
    ((GromoxHttp.tryCreateVconnection GromoxHttp.HChannelType.hout self
        (some v) hf pk).ok = true ∧
      (GromoxHttp.tryCreateVconnection GromoxHttp.HChannelType.hout self
        (some v) hf pk).vconn = some { v with pcontext_out := some self } ∧
      (GromoxHttp.tryCreateVconnection GromoxHttp.HChannelType.hout self
        (some v) hf pk).signals = []) := by
  unfold GromoxHttp.tryCreateVconnection
  refine ⟨⟨rfl, rfl, ?_⟩, rfl, rfl, rfl⟩
  cases h : v.pcontext_out with
  | none => simp [h]
  | some o => simp [h]

/-- Witness for c4_peer_signal: an IN context (id 2) arriving while
ctx_out = 3 is present signals exactly context 3. -/
theorem c4_peer_signal_witness :
    (GromoxHttp.tryCreateVconnection GromoxHttp.HChannelType.hin 2
        (some { pcontext_in := none, pcontext_insucc := none,
                pcontext_out := some 3, pcontext_outsucc := none })
        false true).signals = [3] :=
  (c4_peer_signal
    { pcontext_in := none, pcontext_insucc := none,
      pcontext_out := some 3, pcontext_outsucc := none } 2 false true).1.2.2

/-- Counterexample to claim C7 as stated: with 10 (or 11) bytes of body
buffered and no fragment length recorded yet, the parser keeps reading
from the socket instead of interpreting the header — the code requires
`DCERPC_FRAG_LEN_OFFSET + 2 = 12` buffered bytes, not 10, before reading
the 16-bit fragment length. -/
theorem c7_counterexample :
    rdbodyFragDetermine (List.replicate 10 0) 0 = GromoxHttp.RdbodyStep.keepReading ∧
    rdbodyFragDetermine (List.replicate 11 0) 0 = GromoxHttp.RdbodyStep.keepReading := by
  decide

/-- Claim C7 amended: the fragment length of a new PDU is determined as
soon as at least 12 = `DCERPC_FRAG_LEN_OFFSET + 2` bytes of body are
buffered: byte 8 (DREP) selects little- or big-endian decoding of the
16-bit fragment length at offset 10; with fewer than 12 bytes the parser
keeps reading from the socket. -/
theorem c7_frag_header (buf pre : List Nat) (drep b9 b10 b11 : Nat)
    (rest : List Nat) (hpre : pre.length = 8) (hshort : buf.length < 12) :
    GromoxHttp.rdbodyFragDetermine buf 0 = GromoxHttp.RdbodyStep.keepReading ∧
    GromoxHttp.rdbodyFragDetermine (pre ++ drep :: b9 :: b10 :: b11 :: rest) 0 =
      GromoxHttp.RdbodyStep.framed
        (if drep.land 0x10 ≠ 0 then b10 + 256 * b11 else 256 * b10 + b11) := by
  constructor
  · unfold GromoxHttp.rdbodyFragDetermine
    rw [if_pos]
    show buf.length < 10 + 2
    omega
  · have hlen : (pre ++ drep :: b9 :: b10 :: b11 :: rest).length =
        12 + rest.length := by
      simp [hpre]
      omega
    have h8 : (pre ++ drep :: b9 :: b10 :: b11 :: rest).getD 8 0 = drep := by
      rw [List.getD_append_right _ _ 0 8 (by omega), hpre]
      simp [List.getD]
    have h10 : (pre ++ drep :: b9 :: b10 :: b11 :: rest).getD 10 0 = b10 := by
      rw [List.getD_append_right _ _ 0 10 (by omega), hpre]
      simp [List.getD]
    have h11 : (pre ++ drep :: b9 :: b10 :: b11 :: rest).getD 11 0 = b11 := by
      rw [List.getD_append_right _ _ 0 11 (by omega), hpre]
      simp [List.getD]
    unfold GromoxHttp.rdbodyFragDetermine
    rw [if_neg (by rw [hlen]; show ¬12 + rest.length < 10 + 2; omega),
      if_pos rfl]
    unfold GromoxHttp.DCERPC_DREP_OFFSET GromoxHttp.DCERPC_FRAG_LEN_OFFSET
      GromoxHttp.DCERPC_DREP_LE
    rw [h8, h10, h11]

/-- Witness for c7_frag_header: an 11-byte buffer keeps reading; a
12-byte header with DREP byte 0x10 (little-endian) and bytes 0x05 0x01 at
offsets 10-11 frames a fragment of length 0x0105 = 261. -/
theorem c7_frag_header_witness :
    GromoxHttp.rdbodyFragDetermine [0, 0, 0, 0, 0, 0, 0, 0, 16, 0, 5] 0 =
      GromoxHttp.RdbodyStep.keepReading ∧
    GromoxHttp.rdbodyFragDetermine [0, 0, 0, 0, 0, 0, 0, 0, 16, 0, 5, 1] 0 =
      GromoxHttp.RdbodyStep.framed 261 := by
  have h := c7_frag_header [0, 0, 0, 0, 0, 0, 0, 0, 16, 0, 5]
    [0, 0, 0, 0, 0, 0, 0, 0] 16 0 5 1 [] (by decide) (by decide)
  exact ⟨h.1, by rw [show ([0,0,0,0,0,0,0,0] ++ 16 :: 0 :: 5 :: 1 :: [] :
      List Nat) = [0,0,0,0,0,0,0,0,16,0,5,1] from rfl] at h; rw [h.2]; decide⟩

/-- Claim C9: for an authenticated RPC_IN_DATA or RPC_OUT_DATA request
whose declared Content-Length is at most 16 (0x10), no PduChannel is
allocated and the channel type stays NONE; once the body is consumed the
channel-less body handler replies with the fixed `HTTP/1.1 200 Success`
head announcing `Content-Length: 20` and appends the 20-byte RTS echo
PDU, instead of opening an MS-RPCH tunnel. -/
theorem c9_echo_small_body (method : List Char) (cl : Nat)
    (hm : method = "RPC_IN_DATA".toList ∨ method = "RPC_OUT_DATA".toList)
    (hcl : cl ≤ 0x10) :
    GromoxHttp.htpDelegateRpcChannel method cl GromoxHttp.HChannelType.hnone =
      (GromoxHttp.HChannelType.hnone, false) ∧
    GromoxHttp.rdbodyNochanReply method =
      GromoxHttp.NochanOutcome.echoReply GromoxHttp.echoResponseHead 20 := by
  constructor
  · unfold GromoxHttp.htpDelegateRpcChannel
    rw [if_neg (by omega)]
  · rcases hm with h | h
    · rw [h]
      rfl
    · rw [h]
      rfl

/-- Witness for c9_echo_small_body: an RPC_IN_DATA request with
Content-Length 16 keeps the channel type NONE and gets the fixed echo
reply with a 20-byte body. -/
theorem c9_echo_small_body_witness :
    GromoxHttp.htpDelegateRpcChannel "RPC_IN_DATA".toList 16
      GromoxHttp.HChannelType.hnone = (GromoxHttp.HChannelType.hnone, false) ∧
    GromoxHttp.rdbodyNochanReply "RPC_IN_DATA".toList =
      GromoxHttp.NochanOutcome.echoReply GromoxHttp.echoResponseHead 20 :=
  c9_echo_small_body "RPC_IN_DATA".toList 16 (Or.inl rfl) (by decide)

/-- Claim C10: if the Authorization header is absent the request stays
unauthenticated; if it is present but its scheme is not Basic, or its
base64 payload fails to decode, or the decoded string has no ':', header
processing continues with the request unauthenticated and no error
response; the auth backend is queried only for a successfully decoded
Basic `user:password` pair (split at the first ':', truncated to the
256/128-byte context buffers). -/
theorem c10_auth_fallthrough (auth : Option (List Char))
    (dec : List Char → Option (List Char)) :
    (auth = none → GromoxHttp.htpAuth1 auth dec = GromoxHttp.AuthOutcome.unauthed) ∧
    (∀ line, auth = some line →
      GromoxHttp.caseEqList (line.take 6) "Basic ".toList = false →
      GromoxHttp.htpAuth1 auth dec = GromoxHttp.AuthOutcome.unauthed) ∧
    (∀ line, auth = some line → dec (line.drop 6) = none →
      GromoxHttp.htpAuth1 auth dec = GromoxHttp.AuthOutcome.unauthed) ∧
    (∀ line d, auth = some line → dec (line.drop 6) = some d →
      GromoxHttp.memchr ':' d = none →
      GromoxHttp.htpAuth1 auth dec = GromoxHttp.AuthOutcome.unauthed) ∧
    (∀ u p, GromoxHttp.htpAuth1 auth dec = GromoxHttp.AuthOutcome.query u p →
      ∃ line d j, auth = some line ∧
        GromoxHttp.caseEqList (line.take 6) "Basic ".toList = true ∧
        dec (line.drop 6) = some d ∧ GromoxHttp.memchr ':' d = some j ∧
        u = (d.take j).take 255 ∧ p = (d.drop (j + 1)).take 127) := by
  refine ⟨?_, ?_, ?_, ?_, ?_⟩
  · intro h
    rw [h]
    rfl
  · intro line hline hcase
    rw [hline]
    unfold GromoxHttp.htpAuth1
    dsimp only
    rw [if_neg (by rw [hcase]; exact Bool.false_ne_true)]
  · intro line hline hdec
    rw [hline]
    unfold GromoxHttp.htpAuth1
    dsimp only
    by_cases hcase : GromoxHttp.caseEqList (line.take 6) "Basic ".toList = true
    · rw [if_pos hcase, hdec]
    · rw [if_neg hcase]
  · intro line d hline hdec hmem
    rw [hline]
    unfold GromoxHttp.htpAuth1
    dsimp only
    by_cases hcase : GromoxHttp.caseEqList (line.take 6) "Basic ".toList = true
    · rw [if_pos hcase, hdec]
      dsimp only
      rw [hmem]
    · rw [if_neg hcase]
  · intro u p hq
    cases auth with
    | none => simp [GromoxHttp.htpAuth1] at hq
    | some line =>
        unfold GromoxHttp.htpAuth1 at hq
        dsimp only at hq
        by_cases hcase : GromoxHttp.caseEqList (line.take 6) "Basic ".toList = true
        · rw [if_pos hcase] at hq
          cases hdec : dec (line.drop 6) with
          | none => rw [hdec] at hq; exact absurd hq (by simp)
          | some d =>
              rw [hdec] at hq
              dsimp only at hq
              cases hmem : GromoxHttp.memchr ':' d with
              | none => rw [hmem] at hq; exact absurd hq (by simp)
              | some j =>
                  rw [hmem] at hq
                  refine ⟨line, d, j, rfl, hcase, hdec, hmem, ?_, ?_⟩
                  · exact (GromoxHttp.AuthOutcome.query.injEq _ _ _ _ ▸ hq).1.symm
                  · exact (GromoxHttp.AuthOutcome.query.injEq _ _ _ _ ▸ hq).2.symm
        · rw [if_neg hcase] at hq
          exact absurd hq (by simp)

/-- Witness for c10_auth_fallthrough: an `NTLM abc` Authorization header
(non-Basic scheme) leaves the request unauthenticated. -/
theorem c10_auth_fallthrough_witness :
    GromoxHttp.htpAuth1 (some "NTLM abc".toList) (fun _ => none) =
      GromoxHttp.AuthOutcome.unauthed :=
  (c10_auth_fallthrough (some "NTLM abc".toList) (fun _ => none)).2.1
    "NTLM abc".toList rfl (by decide)

/-- Counterexample to claim C5 as stated: for the authenticated request
URI `/rpc/rpcproxy.dll?h:x` the port part `x` is not a decimal number, so
the claim demands a 400 error; the code produces no 400 — it stores host
`h` and port 0 (`strtol` is applied without any validation). -/
theorem c5_counterexample :
    GromoxHttp.isDecDigits "x".toList = false ∧
    GromoxHttp.htpDelegateRpcUri "/rpc/rpcproxy.dll?h:x".toList =
      GromoxHttp.RpcUriResult.okParsed ['h'] 0 := by
  decide

/-- Claim C5 amended: for a URI of the form
`/rpc/rpcproxy.dll?<host>:<tail>` (first ':' ending the host part), the
RPC delegation step returns 400 exactly when the whole URI is 1024 bytes
or longer or the host part exceeds 128 bytes; otherwise the host
(truncated to the 127 bytes the context buffer holds) and the `strtol`
value of the tail — with no requirement that it be decimal — are stored
and no 400 is produced.  (URIs failing the prefix form or lacking a ':'
also yield 400.) -/
theorem c5_rpcproxy_uri (host rest : List Char) (hh : (':' : Char) ∉ host) :
    (GromoxHttp.htpDelegateRpcUri (GromoxHttp.pfxRpc ++ (host ++ ':' :: rest)) =
        GromoxHttp.RpcUriResult.err400 ↔
      1024 ≤ (GromoxHttp.pfxRpc ++ (host ++ ':' :: rest)).length ∨
        128 < host.length) ∧
    (¬(1024 ≤ (GromoxHttp.pfxRpc ++ (host ++ ':' :: rest)).length ∨
        128 < host.length) →
      GromoxHttp.htpDelegateRpcUri (GromoxHttp.pfxRpc ++ (host ++ ':' :: rest)) =
        GromoxHttp.RpcUriResult.okParsed (host.take 127)
          (GromoxHttp.strtol0 rest)) := by
  have hplen : GromoxHttp.pfxRpc.length = 18 := by decide
  have hstart : GromoxHttp.startsWithList
      (GromoxHttp.pfxRpc ++ (host ++ ':' :: rest)) GromoxHttp.pfxRpc = true :=
    GromoxHttp.startsWithList_append _ _
  have hmem : GromoxHttp.memchr ':'
      (GromoxHttp.pfxRpc ++ (host ++ ':' :: rest)) = some (host.length + 18) := by
    rw [GromoxHttp.memchr_append_none ':' _ _ (by decide),
      GromoxHttp.memchr_append_sep ':' host rest hh, hplen]
    rfl
  by_cases hbig : 1024 ≤ (GromoxHttp.pfxRpc ++ (host ++ ':' :: rest)).length
  · constructor
    · rw [GromoxHttp.htpDelegateRpcUri, if_pos (Or.inr hbig)]
      exact iff_of_true rfl (Or.inl hbig)
    · intro h
      exact absurd (Or.inl hbig) h
  · have hne : ¬((GromoxHttp.pfxRpc ++ (host ++ ':' :: rest)).length = 0 ∨
        1024 ≤ (GromoxHttp.pfxRpc ++ (host ++ ':' :: rest)).length) := by
      push_neg
      refine ⟨?_, by omega⟩
      simp [hplen]
    have hdrop18 : (GromoxHttp.pfxRpc ++ (host ++ ':' :: rest)).drop 18 =
        host ++ ':' :: rest := by
      have h0 := List.drop_left GromoxHttp.pfxRpc (host ++ ':' :: rest)
      rw [hplen] at h0
      exact h0
    have hasc : GromoxHttp.pfxRpc ++ (host ++ ':' :: rest) =
        ((GromoxHttp.pfxRpc ++ host) ++ [':']) ++ rest := by
      simp
    have hlen3 : ((GromoxHttp.pfxRpc ++ host) ++ [':']).length =
        host.length + 18 + 1 := by
      simp [hplen]
      omega
    have hdroprest : (GromoxHttp.pfxRpc ++ (host ++ ':' :: rest)).drop
        (host.length + 18 + 1) = rest := by
      rw [hasc, ← hlen3]
      exact List.drop_left _ _
    have heval : GromoxHttp.htpDelegateRpcUri
        (GromoxHttp.pfxRpc ++ (host ++ ':' :: rest)) =
        if 128 < host.length then GromoxHttp.RpcUriResult.err400
        else GromoxHttp.RpcUriResult.okParsed (host.take 127)
          (GromoxHttp.strtol0 rest) := by
      rw [GromoxHttp.htpDelegateRpcUri, if_neg hne, if_pos hstart]
      dsimp only
      rw [hmem]
      dsimp only
      rw [Nat.add_sub_cancel, hdrop18, hdroprest,
        List.take_append_of_le_length (le_refl host.length), List.take_take]
      rcases Nat.le_total 127 host.length with hc | hc
      · rw [min_eq_left hc]
      · rw [min_eq_right hc, List.take_length, List.take_of_length_le hc]
    rw [heval]
    by_cases hhost : 128 < host.length
    · rw [if_pos hhost]
      constructor
      · simp [hhost]
      · intro h
        exact absurd (Or.inr hhost) h
    · rw [if_neg hhost]
      constructor
      · constructor
        · intro h
          exact absurd h (by simp)
        · intro h
          rcases h with h | h
          · exact absurd h hbig
          · exact absurd h hhost
      · intro _
        rfl

/-- Witness for c5_rpcproxy_uri: the URI
`/rpc/rpcproxy.dll?host.example:6001` is within both bounds, so the code
stores host `host.example` and port 6001 and produces no 400. -/
theorem c5_rpcproxy_uri_witness :
    GromoxHttp.htpDelegateRpcUri
      (GromoxHttp.pfxRpc ++ ("host.example".toList ++ ':' :: "6001".toList)) =
      GromoxHttp.RpcUriResult.okParsed ("host.example".toList.take 127)
        (GromoxHttp.strtol0 "6001".toList) :=
  (c5_rpcproxy_uri "host.example".toList "6001".toList (by decide)).2
    (by decide)

/-- Helper: evaluation of request-line parsing on a well-formed GET line
with a space-free, nonempty URI token. -/
theorem rdheadNo_get_line (uri : List Char) (h1 : (' ' : Char) ∉ uri)
    (h2 : uri ≠ []) :
    htparseRdheadNo ("GET ".toList ++ (uri ++ " HTTP/1.1".toList)) =
      if uri_limit ≤ uri.length then RdheadNoResult.err 414
      else RdheadNoResult.okLine "GET".toList false uri "1.1".toList := by
  rw [show "GET ".toList = ['G', 'E', 'T', ' '] from rfl]
  simp only [List.cons_append, List.nil_append]
  have hm1 : memchr ' ' ('G' :: 'E' :: 'T' :: ' ' :: (uri ++ " HTTP/1.1".toList)) =
      some 3 := by
    rw [memchr_cons_of_ne _ (by decide), memchr_cons_of_ne _ (by decide),
      memchr_cons_of_ne _ (by decide),
      show memchr ' ' (' ' :: (uri ++ " HTTP/1.1".toList)) = some 0 from by
        simp [memchr]]
    rfl
  have hm2 : memchr ' ' (uri ++ " HTTP/1.1".toList) = some uri.length := by
    rw [show " HTTP/1.1".toList = ' ' :: "HTTP/1.1".toList from rfl]
    exact memchr_append_sep ' ' uri _ h1
  have hv : List.drop (3 + 1 + uri.length + 1)
      ('G' :: 'E' :: 'T' :: ' ' :: (uri ++ " HTTP/1.1".toList)) =
      "HTTP/1.1".toList := by
    rw [show ('G' :: 'E' :: 'T' :: ' ' :: (uri ++ " HTTP/1.1".toList)) =
        ((['G', 'E', 'T', ' '] ++ uri ++ [' ']) ++ "HTTP/1.1".toList) from by
      rw [show " HTTP/1.1".toList = ' ' :: "HTTP/1.1".toList from rfl]
      simp]
    rw [show 3 + 1 + uri.length + 1 =
        ((['G', 'E', 'T', ' '] ++ uri ++ [' ']) : List Char).length from by
      simp only [List.length_append, List.length_cons, List.length_nil]]
    exact List.drop_left _ _
  have htail : cAt ('G' :: 'E' :: 'T' :: ' ' :: (uri ++ " HTTP/1.1".toList))
      (3 + 1 + uri.length + 9) = Char.ofNat 0 := by
    unfold cAt
    apply List.getD_eq_default
    simp only [List.length_cons, List.length_append]
    rw [show ((" HTTP/1.1".toList : List Char)).length = 9 from rfl]
    omega
  have hv6 : List.drop (3 + 1 + uri.length + 6)
      ('G' :: 'E' :: 'T' :: ' ' :: (uri ++ " HTTP/1.1".toList)) =
      "1.1".toList := by
    rw [show ('G' :: 'E' :: 'T' :: ' ' :: (uri ++ " HTTP/1.1".toList)) =
        ((['G', 'E', 'T', ' '] ++ uri ++ " HTTP/".toList) ++ "1.1".toList) from by
      rw [show " HTTP/1.1".toList =
        " HTTP/".toList ++ "1.1".toList from rfl]
      simp]
    rw [show 3 + 1 + uri.length + 6 =
        ((['G', 'E', 'T', ' '] ++ uri ++ " HTTP/".toList) : List Char).length from by
      simp only [List.length_append, List.length_cons, List.length_nil]
      rw [show ((" HTTP/".toList : List Char)).length = 6 from rfl]]
    exact List.drop_left _ _
  unfold htparseRdheadNo
  rw [hm1]
  dsimp only
  rw [if_neg (by norm_num)]
  rw [show List.drop (3 + 1)
      ('G' :: 'E' :: 'T' :: ' ' :: (uri ++ " HTTP/1.1".toList)) =
      uri ++ " HTTP/1.1".toList from rfl]
  rw [hm2]
  dsimp only
  rw [hv, htail]
  rw [if_pos ⟨by decide, Or.inr (Or.inr rfl)⟩]
  unfold htparseRdheadNo.htparseRdheadNo2
  rw [if_neg fun he => h2 (List.length_eq_zero.mp he)]
  rw [show List.take 3
      ('G' :: 'E' :: 'T' :: ' ' :: (uri ++ " HTTP/1.1".toList)) =
      "GET".toList from rfl]
  rw [show List.drop (3 + 1)
      ('G' :: 'E' :: 'T' :: ' ' :: (uri ++ " HTTP/1.1".toList)) =
      uri ++ " HTTP/1.1".toList from rfl]
  rw [List.take_append_of_le_length (le_refl uri.length), List.take_length]
  rw [hv6]

/-- Counterexample to claim C6 as stated: a request line whose URI token
has exactly `uri_limit` bytes is not accepted — the code's
`tmp_len1 >= http_request::uri_limit` comparison rejects it with 414. -/
theorem c6_counterexample :
    GromoxHttp.htparseRdheadNo
      ("GET ".toList ++ (List.replicate GromoxHttp.uri_limit 'a' ++
        " HTTP/1.1".toList)) = GromoxHttp.RdheadNoResult.err 414 := by
  rw [GromoxHttp.rdheadNo_get_line (List.replicate GromoxHttp.uri_limit 'a')
    (by intro h; rw [List.mem_replicate] at h; exact absurd h.2 (by decide))
    (by
      intro he
      have h := congrArg List.length he
      rw [List.length_replicate] at h
      exact absurd h (by decide))]
  rw [if_pos (by rw [List.length_replicate])]

/-- Claim C6 amended: in request-line parsing, a URI token of at most
`uri_limit - 1` bytes is accepted (method, URI and version are stored),
while a URI token of `uri_limit` bytes or more draws a 414 error
response: the boundary comparison is `tmp_len1 >= uri_limit`, so the
largest accepted URI is one byte shorter than the claim states. -/
theorem c6_uri_limit_boundary (uri : List Char) (h1 : (' ' : Char) ∉ uri)
    (h2 : uri ≠ []) :
    (uri.length < GromoxHttp.uri_limit →
      GromoxHttp.htparseRdheadNo ("GET ".toList ++ (uri ++ " HTTP/1.1".toList)) =
        GromoxHttp.RdheadNoResult.okLine "GET".toList false uri "1.1".toList) ∧
    (GromoxHttp.uri_limit ≤ uri.length →
      GromoxHttp.htparseRdheadNo ("GET ".toList ++ (uri ++ " HTTP/1.1".toList)) =
        GromoxHttp.RdheadNoResult.err 414) := by
  constructor
  · intro h
    rw [GromoxHttp.rdheadNo_get_line uri h1 h2, if_neg (by omega)]
  · intro h
    rw [GromoxHttp.rdheadNo_get_line uri h1 h2, if_pos h]

/-- Witness for c6_uri_limit_boundary: a URI of `uri_limit - 1 = 1023`
bytes is accepted with method, URI and version stored. -/
theorem c6_uri_limit_boundary_witness :
    GromoxHttp.htparseRdheadNo
      ("GET ".toList ++ (List.replicate 1023 'a' ++ " HTTP/1.1".toList)) =
      GromoxHttp.RdheadNoResult.okLine "GET".toList false
        (List.replicate 1023 'a') "1.1".toList :=
  (c6_uri_limit_boundary (List.replicate 1023 'a')
    (by intro h; rw [List.mem_replicate] at h; exact absurd h.2 (by decide))
    (by
      intro he
      have h := congrArg List.length he
      rw [List.length_replicate] at h
      exact absurd h (by decide))).1
    (by rw [List.length_replicate]; decide)

end GromoxHttp
